import Mathlib

/-!
# Verification of the gpustresstest.online benchmark core (src/main.js)

Shallow embedding of the frame-rate sampling, aggregation, scoring and
result-persistence code of `src/main.js`.  Times (`Date.now()` values) are
modelled as integers (milliseconds).  JavaScript numbers are modelled
exactly: a finite number is a rational, and the IEEE special values
`Infinity`, `-Infinity` and `NaN` are explicit constructors, with the
JavaScript semantics of the arithmetic and `Math.min` / `Math.max` /
`Math.round` operations on them.  (Finite arithmetic is exact rather than
double-rounded; every property proved here depends only on order,
boundedness and special-value propagation, which the exact model shares
with doubles on the inputs considered.)
-/

namespace GpuStress

/-- `Math.round` on an exact rational: JavaScript rounds half-up,
`Math.round x = ⌊x + 1/2⌋`. -/
def jsRound (x : ℚ) : ℤ := ⌊x + 1/2⌋

/-- A JavaScript number: an exact finite rational, `Infinity`, `-Infinity`
or `NaN`. -/
inductive JsVal where
  | fin (q : ℚ)
  | inf
  | ninf
  | nan
deriving DecidableEq, Repr

namespace JsVal

/-- JavaScript addition. -/
def jsAdd : JsVal → JsVal → JsVal
  | nan, _ => nan
  | _, nan => nan
  | fin a, fin b => fin (a + b)
  | fin _, inf => inf
  | inf, fin _ => inf
  | fin _, ninf => ninf
  | ninf, fin _ => ninf
  | inf, inf => inf
  | ninf, ninf => ninf
  | inf, ninf => nan
  | ninf, inf => nan

/-- JavaScript subtraction. -/
def jsSub : JsVal → JsVal → JsVal
  | nan, _ => nan
  | _, nan => nan
  | fin a, fin b => fin (a - b)
  | fin _, inf => ninf
  | inf, fin _ => inf
  | fin _, ninf => inf
  | ninf, fin _ => ninf
  | inf, inf => nan
  | ninf, ninf => nan
  | inf, ninf => inf
  | ninf, inf => ninf

/-- JavaScript multiplication (`±∞ * 0 = NaN`, sign rules otherwise). -/
def jsMul : JsVal → JsVal → JsVal
  | nan, _ => nan
  | _, nan => nan
  | fin a, fin b => fin (a * b)
  | fin a, inf => if 0 < a then inf else if a < 0 then ninf else nan
  | inf, fin a => if 0 < a then inf else if a < 0 then ninf else nan
  | fin a, ninf => if 0 < a then ninf else if a < 0 then inf else nan
  | ninf, fin a => if 0 < a then ninf else if a < 0 then inf else nan
  | inf, inf => inf
  | ninf, ninf => inf
  | inf, ninf => ninf
  | ninf, inf => ninf

/-- JavaScript division.  Division of a nonzero finite number by zero gives
a signed infinity (the zero produced by this code is `+0`); `0/0`,
`∞/∞` give `NaN`; a finite number divided by an infinity gives `0`. -/
def jsDiv : JsVal → JsVal → JsVal
  | nan, _ => nan
  | _, nan => nan
  | fin a, fin b =>
      if b = 0 then (if 0 < a then inf else if a < 0 then ninf else nan)
      else fin (a / b)
  | inf, fin b => if b < 0 then ninf else inf
  | ninf, fin b => if b < 0 then inf else ninf
  | fin _, inf => fin 0
  | fin _, ninf => fin 0
  | inf, inf => nan
  | inf, ninf => nan
  | ninf, inf => nan
  | ninf, ninf => nan

/-- `Math.min`: `NaN` propagates; otherwise the order
`-∞ < finite < ∞`. -/
def jsMin : JsVal → JsVal → JsVal
  | nan, _ => nan
  | _, nan => nan
  | fin a, fin b => fin (min a b)
  | fin a, inf => fin a
  | inf, fin b => fin b
  | _, ninf => ninf
  | ninf, _ => ninf
  | inf, inf => inf

/-- `Math.max`: `NaN` propagates; otherwise the order
`-∞ < finite < ∞`. -/
def jsMax : JsVal → JsVal → JsVal
  | nan, _ => nan
  | _, nan => nan
  | fin a, fin b => fin (max a b)
  | fin a, ninf => fin a
  | ninf, fin b => fin b
  | _, inf => inf
  | inf, _ => inf
  | ninf, ninf => ninf

/-- `Math.round`: identity on the special values, half-up rounding on
finite values. -/
def jsRoundV : JsVal → JsVal
  | fin q => fin (jsRound q : ℤ)
  | inf => inf
  | ninf => ninf
  | nan => nan

end JsVal

open JsVal

/-! ## Level configuration (src/main.js lines 25-50, `testLevels`) -/

/-- The four test levels. -/
inductive Level where
  | light
  | medium
  | heavy
  | extreme
deriving DecidableEq, Repr

/-- One entry of the `testLevels` table. -/
structure LevelConfig where
  objects : ℕ
  levelKey : String
  levelName : String
  multiplier : ℚ
  expectedDesktop : ℚ
  expectedMobile : ℚ
deriving DecidableEq, Repr

/-- The `testLevels` configuration table (src/main.js lines 25-50). -/
def testLevels : Level → LevelConfig
  | .light => ⟨50, "light", "Light Test", 7/10, 45, 30⟩
  | .medium => ⟨150, "medium", "Medium Test", 1, 35, 22⟩
  | .heavy => ⟨300, "heavy", "Heavy Test", 13/10, 25, 15⟩
  | .extreme => ⟨500, "extreme", "Extreme Test", 8/5, 18, 10⟩

/-- `isMobile ? expectedFPS.mobile : expectedFPS.desktop`
(src/main.js line 395). -/
def expectedFPSOf (lvl : Level) (isMobile : Bool) : ℚ :=
  if isMobile then (testLevels lvl).expectedMobile else (testLevels lvl).expectedDesktop

/-! ## Scorer, full-fidelity path (src/main.js lines 393-413, `calculateScore`)

`calculateScore` reads the terminal `testResults` fields and the
level/device `expectedFPS`; it writes `testResults.score` and
`testResults.stability`.  We model it as a function returning the
`(score, stability)` pair. -/

/-- `Math.min(100, (testResults.avgFPS / expectedFPS) * 60)`
(src/main.js line 398). -/
def fullFpsScore (expectedFPS : ℚ) (avgFPS : JsVal) : JsVal :=
  jsMin (fin 100) (jsMul (jsDiv avgFPS (fin expectedFPS)) (fin 60))

/-- `Math.max(0, (testResults.maxTemp - 75) * 2)` (src/main.js line 401). -/
def fullTempPenalty (maxTemp : JsVal) : JsVal :=
  jsMax (fin 0) (jsMul (jsSub maxTemp (fin 75)) (fin 2))

/-- `testResults.maxFPS - testResults.minFPS` (src/main.js line 404). -/
def fpsRangeOf (minFPS maxFPS : JsVal) : JsVal :=
  jsSub maxFPS minFPS

/-- `Math.max(0, 30 - fpsRange)` (src/main.js line 405). -/
def fullStabilityBonus (minFPS maxFPS : JsVal) : JsVal :=
  jsMax (fin 0) (jsSub (fin 30) (fpsRangeOf minFPS maxFPS))

/-- `Math.max(0, Math.min(100, Math.round(x)))`, the clamping pattern of
src/main.js lines 409-410 and 1087-1088. -/
def clampRound (x : JsVal) : JsVal :=
  jsMax (fin 0) (jsMin (fin 100) (jsRoundV x))

/-- `testResults.stability` as computed on src/main.js line 410 (and,
identically, on line 1088):
`Math.max(0, Math.min(100, Math.round(100 - (fpsRange / avgFPS) * 100)))`. -/
def fullStability (avgFPS minFPS maxFPS : JsVal) : JsVal :=
  clampRound (jsSub (fin 100) (jsMul (jsDiv (fpsRangeOf minFPS maxFPS) avgFPS) (fin 100)))

/-- `calculateScore` (src/main.js lines 393-413): returns the
`(score, stability)` pair written into `testResults`. -/
def calculateScore (expectedFPS : ℚ) (avgFPS minFPS maxFPS maxTemp : JsVal) :
    JsVal × JsVal :=
  let rawScore :=
    jsAdd (jsSub (fullFpsScore expectedFPS avgFPS) (fullTempPenalty maxTemp))
      (fullStabilityBonus minFPS maxFPS)
  (clampRound rawScore, fullStability avgFPS minFPS maxFPS)

/-! ## Scorer, reduced-fidelity path (src/main.js lines 1082-1088, scoring
part of `stopFallbackTest`) -/

/-- `Math.min(100, (testResults.avgFPS / expectedFPS) * 70)` with the
fixed `expectedFPS = 50` of the 2D mode (src/main.js lines 1084-1085). -/
def fallbackFpsScore (avgFPS : JsVal) : JsVal :=
  jsMin (fin 100) (jsMul (jsDiv avgFPS (fin 50)) (fin 70))

/-- `Math.max(0, 20 - (testResults.maxFPS - testResults.minFPS))`
(src/main.js line 1086). -/
def fallbackStabilityBonus (minFPS maxFPS : JsVal) : JsVal :=
  jsMax (fin 0) (jsSub (fin 20) (fpsRangeOf minFPS maxFPS))

/-- `testResults.stability` as computed on src/main.js line 1088 (the
reduced-fidelity path; textually the same expression as line 410). -/
def fallbackStability (avgFPS minFPS maxFPS : JsVal) : JsVal :=
  clampRound (jsSub (fin 100) (jsMul (jsDiv (fpsRangeOf minFPS maxFPS) avgFPS) (fin 100)))

/-- The scoring tail of `stopFallbackTest` (src/main.js lines 1082-1088):
returns the `(score, stability)` pair written into `testResults`. -/
def fallbackScore (avgFPS minFPS maxFPS : JsVal) : JsVal × JsVal :=
  (clampRound (jsAdd (fallbackFpsScore avgFPS) (fallbackStabilityBonus minFPS maxFPS)),
   fallbackStability avgFPS minFPS maxFPS)

/-! ## Spec-side formulas (real arithmetic, from the specification text)

These definitions follow the words of the specification (§4.3) and of the
claims, not the source; they are compared with the source-derived
definitions above in the refinement theorems. -/

/-- Integer clamp to `[0, 100]`. -/
def clampInt (n : ℤ) : ℤ := max 0 (min 100 n)

/-- Spec formula for the full-fidelity score:
`clamp(round(min(100,(avg/expected)*60) - max(0,(maxTemp-75)*2) +
max(0, 30 - (maxFPS-minFPS))), 0, 100)`. -/
def specFullScore (expectedFPS avgFPS minFPS maxFPS maxTemp : ℚ) : ℤ :=
  clampInt (jsRound (min 100 (avgFPS / expectedFPS * 60)
    - max 0 ((maxTemp - 75) * 2) + max 0 (30 - (maxFPS - minFPS))))

/-- Spec formula for stability:
`clamp(round(100 - ((maxFPS-minFPS)/avgFPS)*100), 0, 100)`. -/
def specStability (avgFPS minFPS maxFPS : ℚ) : ℤ :=
  clampInt (jsRound (100 - (maxFPS - minFPS) / avgFPS * 100))

/-- Spec formula for the reduced-fidelity score:
`clamp(round(min(100,(avg/50)*70) + max(0, 20 - (maxFPS-minFPS))), 0, 100)`. -/
def specFallbackScore (avgFPS minFPS maxFPS : ℚ) : ℤ :=
  clampInt (jsRound (min 100 (avgFPS / 50 * 70) + max 0 (20 - (maxFPS - minFPS))))

/-! ## Sampler and Aggregator (src/main.js lines 345-387, the measurement
block of `animate`; identically lines 1048-1062 in `updateFallbackTest`)

State of one run: the sampler window (`frameCount`, `lastFPSUpdate`), the
cumulative frame counter `totalFrames`, and the aggregated
`testResults.minFPS` / `maxFPS` / `avgFPS`.  `minFPS` is initialized to
`Infinity` (modelled as `⊤ : WithTop ℤ`); every other value that ever
reaches these fields is an integer (`Math.round` results), so integers
suffice.  Timestamps are `Date.now()` milliseconds, modelled as `ℤ`. -/

/-- The per-run mutable state touched by the measurement block. -/
structure RunState where
  frameCount : ℕ
  totalFrames : ℕ
  lastFPSUpdate : ℤ
  minFPS : WithTop ℤ
  maxFPS : ℤ
  avgFPS : ℤ
deriving DecidableEq, Repr

/-- The state set up by `startGPUTest` (src/main.js lines 448-464) /
`startFallbackTest` (lines 925-938): counters zeroed,
`lastFPSUpdate = Date.now()` (the same clock instant as `testStartTime`,
read by the adjacent call on line 448/925), `minFPS = Infinity`,
`maxFPS = 0`, `avgFPS = 0`. -/
def initRunState (startTime : ℤ) : RunState :=
  ⟨0, 0, startTime, ⊤, 0, 0⟩

/-- `Math.round(frameCount / ((now - lastFPSUpdate) / 1000))`
(src/main.js line 349): the FPS sample of the window closing at `now`,
with the frame count already incremented for the current frame. -/
def windowFps (s : RunState) (now : ℤ) : ℤ :=
  jsRound (((s.frameCount + 1 : ℕ) : ℚ) / (((now - s.lastFPSUpdate : ℤ) : ℚ) / 1000))

/-- `Math.round(totalFrames / elapsedSeconds)` with
`elapsedSeconds = (now - testStartTime) / 1000` (src/main.js lines
355-356), for a cumulative count of `tf` frames. -/
def runAvg (startTime : ℤ) (tf : ℕ) (now : ℤ) : ℤ :=
  jsRound ((tf : ℚ) / (((now - startTime : ℤ) : ℚ) / 1000))

/-- One frame callback at time `now` (src/main.js lines 345-362 and
385-386): increment `frameCount` and `totalFrames`; if
`now - lastFPSUpdate >= 1000`, emit
`fps = Math.round(frameCount / ((now - lastFPSUpdate) / 1000))`, update
`minFPS`/`maxFPS` with it, recompute
`avgFPS = Math.round(totalFrames / ((now - testStartTime) / 1000))`, and
reset `frameCount = 0`, `lastFPSUpdate = now`.  Returns the new state and
the emitted sample, if any. -/
def frameStep (startTime : ℤ) (s : RunState) (now : ℤ) : RunState × Option ℤ :=
  if 1000 ≤ now - s.lastFPSUpdate then
    (⟨0, s.totalFrames + 1, now, min s.minFPS (windowFps s now : WithTop ℤ),
      max s.maxFPS (windowFps s now), runAvg startTime (s.totalFrames + 1) now⟩,
     some (windowFps s now))
  else
    (⟨s.frameCount + 1, s.totalFrames + 1, s.lastFPSUpdate,
      s.minFPS, s.maxFPS, s.avgFPS⟩, none)

/-- Fold `frameStep` over a frame-timestamp list, accumulating the emitted
samples (in emission order). -/
def stepAcc (startTime : ℤ) (p : RunState × List ℤ) (now : ℤ) : RunState × List ℤ :=
  ((frameStep startTime p.1 now).1, p.2 ++ (frameStep startTime p.1 now).2.toList)

/-- Run a whole test: start at `startTime`, process the frame callbacks at
the given timestamps.  Returns the terminal state and the list of emitted
FPS samples. -/
def runFrames (startTime : ℤ) (frames : List ℤ) : RunState × List ℤ :=
  frames.foldl (stepAcc startTime) (initRunState startTime, [])

/-- `testResults.minFPS === Infinity ? 0 : testResults.minFPS`, the
display normalization of src/main.js line 534 (and line 1110). -/
def displayMinFPS : WithTop ℤ → ℤ
  | ⊤ => 0
  | (n : ℤ) => n

/-- Embed the `minFPS` field (integer or `Infinity`) into the
JavaScript-number model. -/
def jsValOfMinFPS : WithTop ℤ → JsVal
  | ⊤ => .inf
  | (n : ℤ) => .fin n

/-! ## Result persistence (src/main.js lines 416-438 `saveTestResults`,
lines 570-576 `loadPreviousResults`)

`localStorage` values are JSON strings.  We model a stored value by its
JSON-relevant class: the empty string (falsy, so `x || d` replaces it by
the default `d`), a well-formed JSON array of result records, or a
malformed string (on which `JSON.parse` throws a `SyntaxError`).  Records
are kept in their JSON form: `JSON.stringify` maps the nonfinite numbers
`Infinity`, `-Infinity` and `NaN` to `null`, so a persisted numeric field
is either a JSON number or JSON `null`. -/

/-- The fragment of JSON needed for persisted result fields. -/
inductive Json where
  | null
  | num (q : ℚ)
  | str (s : String)
deriving DecidableEq, Repr

/-- `JSON.stringify` on a JavaScript number: finite numbers persist as
JSON numbers, `Infinity` / `-Infinity` / `NaN` persist as `null`. -/
def jsonOfNumber : JsVal → Json
  | .fin q => .num q
  | .inf => .null
  | .ninf => .null
  | .nan => .null

/-- A value found in `localStorage` under the result key, classified by
what `JSON.parse` does with it. -/
inductive Stored (α : Type) where
  | emptyStr
  | wellFormed (l : List α)
  | malformed
deriving DecidableEq, Repr

/-- `JSON.parse(localStorage.getItem('gpuTestResults') || '[]')`, the
shared load expression of src/main.js lines 432 and 571: a missing key
(`getItem` returns `null`) and the empty string are both falsy, so the
default `'[]'` parses to the empty list; a well-formed array parses to its
contents; a malformed value makes `JSON.parse` throw a `SyntaxError`
(there is no surrounding `try`/`catch`). -/
def loadPreviousResults {α : Type} : Option (Stored α) → Except String (List α)
  | none => .ok []
  | some .emptyStr => .ok []
  | some (.wellFormed l) => .ok l
  | some .malformed => .error "SyntaxError: JSON.parse"

/-- The insertion step of `saveTestResults` (src/main.js lines 433-434):
`savedResults.unshift(result); savedResults = savedResults.slice(0, 10)`. -/
def saveStep {α : Type} (h : List α) (r : α) : List α :=
  (r :: h).take 10

/-- A persisted result record in its JSON form (src/main.js lines
417-430; schema of spec §6).  Numeric fields that can be nonfinite are
kept as `Json`. -/
structure SavedRecord where
  level : String
  levelName : String
  score : Json
  avgFPS : Json
  minFPS : Json
  maxFPS : Json
  maxTemp : Json
  stability : Json
  objects : ℕ
  deviceType : String
  date : String
  time : String
deriving DecidableEq, Repr

/-- The terminal `testResults` object (src/main.js lines 53-60) at save
time: `minFPS` may still be its `Infinity` initializer; `score` and
`stability` were written by the scorer as JavaScript numbers. -/
structure TestResults where
  minFPS : WithTop ℤ
  maxFPS : ℤ
  avgFPS : ℤ
  maxTemp : ℚ
  stability : JsVal
  score : JsVal
deriving DecidableEq, Repr

/-- The record literal built by `saveTestResults` (src/main.js lines
417-430), in its persisted JSON form (`maxTemp` is `Math.round`ed before
saving; `date` and `time` come from the external locale clock). -/
def buildSavedRecord (lvl : Level) (isMobile : Bool) (res : TestResults)
    (date time : String) : SavedRecord :=
  { level := (testLevels lvl).levelKey
    levelName := (testLevels lvl).levelName
    score := jsonOfNumber res.score
    avgFPS := .num res.avgFPS
    minFPS := jsonOfNumber (jsValOfMinFPS res.minFPS)
    maxFPS := .num res.maxFPS
    maxTemp := .num (jsRound res.maxTemp)
    stability := jsonOfNumber res.stability
    objects := (testLevels lvl).objects
    deviceType := if isMobile then "Mobile" else "Desktop"
    date := date
    time := time }

/-- `saveTestResults` (src/main.js lines 416-438) acting on the store:
parse the existing value (the parse throws on a malformed store), unshift
the new record, truncate to 10, and persist the result. -/
def saveTestResults (rec : SavedRecord) (store : Option (Stored SavedRecord)) :
    Except String (Option (Stored SavedRecord)) :=
  match loadPreviousResults store with
  | .error e => .error e
  | .ok l => .ok (some (.wellFormed (saveStep l rec)))

/-! ## Start operations (src/main.js lines 441-477 `startGPUTest`,
lines 921-946 `startFallbackTest`)

The module-level test state touched by the two start functions.  DOM
reads/writes and the rendering/chart objects are external collaborators
and carry no test state of their own. -/

/-- Module-level state relevant to starting a run. -/
structure AppState where
  isTestRunning : Bool
  currentLevel : Level
  testStartTime : ℤ
  frameCount : ℕ
  totalFrames : ℕ
  lastFPSUpdate : ℤ
  simulatedTemp : ℚ
  avgFPSGlobal : ℤ
  fpsData : List ℤ
  results : TestResults
deriving DecidableEq, Repr

/-- The `testResults` reset literal (src/main.js lines 457-464 and
931-938): `minFPS: Infinity, maxFPS: 0, avgFPS: 0, maxTemp: 65,
stability: 100, score: 0`. -/
def initTestResults : TestResults :=
  ⟨⊤, 0, 0, 65, .fin 100, .fin 0⟩

/-- `startGPUTest(level)` (src/main.js lines 441-477): a no-op if
`isTestRunning` is already `true` (line 442); otherwise resets the whole
run state, including `simulatedTemp = 65`, `fpsData = []`, `avgFPS = 0`,
with `now` the `Date.now()` reading. -/
def startGPUTest (lvl : Level) (now : ℤ) (s : AppState) : AppState :=
  if s.isTestRunning then s
  else
    { isTestRunning := true
      currentLevel := lvl
      testStartTime := now
      frameCount := 0
      totalFrames := 0
      lastFPSUpdate := now
      simulatedTemp := 65
      avgFPSGlobal := 0
      fpsData := []
      results := initTestResults }

/-- `startFallbackTest(level)` (src/main.js lines 921-946): sets
`isTestRunning = true` and resets the counters and `testResults`
unconditionally — it performs no `isTestRunning` check, and it does not
reset `simulatedTemp`, `fpsData` or the global `avgFPS`. -/
def startFallbackTest (lvl : Level) (now : ℤ) (s : AppState) : AppState :=
  { s with
    isTestRunning := true
    currentLevel := lvl
    testStartTime := now
    frameCount := 0
    totalFrames := 0
    lastFPSUpdate := now
    results := initTestResults }

/-! ## Auxiliary definitions for the theorems -/

/-- A JavaScript number that is finite and lies in `[0, 100]`. -/
def InRange (v : JsVal) : Prop := ∃ q : ℚ, v = .fin q ∧ 0 ≤ q ∧ q ≤ 100

/-- A concrete module state in which a test is currently running. -/
def sampleRunningState : AppState :=
  { isTestRunning := true
    currentLevel := .medium
    testStartTime := 0
    frameCount := 7
    totalFrames := 120
    lastFPSUpdate := 900
    simulatedTemp := 70
    avgFPSGlobal := 40
    fpsData := [40]
    results := initTestResults }

/-- Frames counted in closed (already sampled) windows: every frame is in
exactly one window, and the current partial window holds `frameCount` of
the `totalFrames` cumulative frames. -/
def closedFrames (s : RunState) : ℕ := s.totalFrames - s.frameCount

/-- The exact mean frame rate (frames per second) over the closed windows
of a run that started at `start`. -/
def avgRate (start : ℤ) (s : RunState) : ℚ :=
  1000 * ((closedFrames s : ℕ) : ℚ) / ((s.lastFPSUpdate - start : ℤ) : ℚ)

/-- Aggregator invariant: before any emission the aggregates hold their
initializers; afterwards `avgFPS` is the rounded closed-window mean rate,
some rate `rlo` below the mean rounds to at least `minFPS`, and some rate
`rhi` above the mean rounds to at most `maxFPS`. -/
def aggInv (start : ℤ) (p : RunState × List ℤ) : Prop :=
  (p.2 = [] → p.1.lastFPSUpdate = start ∧ p.1.minFPS = ⊤ ∧ p.1.maxFPS = 0 ∧
    p.1.avgFPS = 0 ∧ p.1.frameCount = p.1.totalFrames) ∧
  (p.2 ≠ [] → start < p.1.lastFPSUpdate ∧ p.1.frameCount ≤ p.1.totalFrames ∧
    p.1.avgFPS = jsRound (avgRate start p.1) ∧
    (∃ rlo : ℚ, rlo ≤ avgRate start p.1 ∧
      p.1.minFPS ≤ ((jsRound rlo : ℤ) : WithTop ℤ)) ∧
    (∃ rhi : ℚ, avgRate start p.1 ≤ rhi ∧ jsRound rhi ≤ p.1.maxFPS))

/-- The terminal `testResults` object of a run: the aggregates come from
the run's final state, while `maxTemp` and the scorer-written `stability`
and `score` fields are parameters. -/
def terminalTestResults (start : ℤ) (frames : List ℤ) (mt : ℚ)
    (st sc : JsVal) : TestResults :=
  ⟨(runFrames start frames).1.minFPS, (runFrames start frames).1.maxFPS,
   (runFrames start frames).1.avgFPS, mt, st, sc⟩

/-! ## Helper lemmas -/

theorem jsRound_mono {x y : ℚ} (h : x ≤ y) : jsRound x ≤ jsRound y :=
  Int.floor_le_floor (by linarith)

theorem jsRound_nonneg {x : ℚ} (h : 0 ≤ x) : 0 ≤ jsRound x :=
  Int.le_floor.2 (by push_cast; linarith)

theorem jsRound_min (x y : ℚ) : jsRound (min x y) = min (jsRound x) (jsRound y) := by
  rcases le_total x y with h | h
  · rw [min_eq_left h, min_eq_left (jsRound_mono h)]
  · rw [min_eq_right h, min_eq_right (jsRound_mono h)]

theorem jsRound_max (x y : ℚ) : jsRound (max x y) = max (jsRound x) (jsRound y) := by
  rcases le_total x y with h | h
  · rw [max_eq_right h, max_eq_right (jsRound_mono h)]
  · rw [max_eq_left h, max_eq_left (jsRound_mono h)]

theorem clampInt_nonneg (n : ℤ) : 0 ≤ clampInt n := le_max_left 0 _

theorem clampInt_le (n : ℤ) : clampInt n ≤ 100 :=
  max_le (by norm_num) (min_le_left 100 n)

/-- On finite inputs with a nonzero `expectedFPS`, the full-fidelity score
reduces to the spec's rational formula. -/
theorem calculateScore_fst_fin (e a mn mx t : ℚ) (he : e ≠ 0) :
    (calculateScore e (.fin a) (.fin mn) (.fin mx) (.fin t)).1 =
      .fin (specFullScore e a mn mx t) := by
  simp only [calculateScore, fullFpsScore, fullTempPenalty, fullStabilityBonus,
    fpsRangeOf, clampRound, JsVal.jsDiv, JsVal.jsMul, JsVal.jsSub, JsVal.jsAdd,
    JsVal.jsMin, JsVal.jsMax, JsVal.jsRoundV, if_neg he, specFullScore, clampInt]
  push_cast
  ring_nf

/-- On finite inputs with a nonzero `avgFPS`, the stability expression of
src/main.js line 410 reduces to the spec's rational formula. -/
theorem fullStability_fin (a mn mx : ℚ) (ha : a ≠ 0) :
    fullStability (.fin a) (.fin mn) (.fin mx) = .fin (specStability a mn mx) := by
  simp only [fullStability, fpsRangeOf, clampRound, JsVal.jsDiv, JsVal.jsMul,
    JsVal.jsSub, JsVal.jsMin, JsVal.jsMax, JsVal.jsRoundV, if_neg ha,
    specStability, clampInt]
  push_cast
  ring_nf

/-- With `avgFPS = 0` and `minFPS < maxFPS`, the stability expression
evaluates through `+∞` and clamps to `0`. -/
theorem fullStability_zero_pos (mn mx : ℚ) (h : mn < mx) :
    fullStability (.fin 0) (.fin mn) (.fin mx) = .fin 0 := by
  have h1 : (0 : ℚ) < mx - mn := sub_pos.2 h
  simp [fullStability, fpsRangeOf, clampRound, JsVal.jsDiv, JsVal.jsMul,
    JsVal.jsSub, JsVal.jsMin, JsVal.jsMax, JsVal.jsRoundV, h1]

/-- With `avgFPS = 0` and `maxFPS < minFPS`, the stability expression
evaluates through `-∞` and clamps to `100`. -/
theorem fullStability_zero_neg (mn mx : ℚ) (h : mx < mn) :
    fullStability (.fin 0) (.fin mn) (.fin mx) = .fin 100 := by
  have h1 : mx - mn < 0 := sub_neg.2 h
  have h2 : ¬ (0 : ℚ) < mx - mn := not_lt.2 h1.le
  simp [fullStability, fpsRangeOf, clampRound, JsVal.jsDiv, JsVal.jsMul,
    JsVal.jsSub, JsVal.jsMin, JsVal.jsMax, JsVal.jsRoundV, h1, h2]

/-- With `avgFPS = 0` and `minFPS = maxFPS`, the stability expression is
`0/0` and evaluates to `NaN`. -/
theorem fullStability_zero_zero (mn : ℚ) :
    fullStability (.fin 0) (.fin mn) (.fin mn) = .nan := by
  simp [fullStability, fpsRangeOf, clampRound, JsVal.jsDiv, JsVal.jsMul,
    JsVal.jsSub, JsVal.jsMin, JsVal.jsMax, JsVal.jsRoundV]

/-- On finite inputs, the reduced-fidelity score reduces to the spec's
rational formula. -/
theorem fallbackScore_fst_fin (a mn mx : ℚ) :
    (fallbackScore (.fin a) (.fin mn) (.fin mx)).1 =
      .fin (specFallbackScore a mn mx) := by
  simp only [fallbackScore, fallbackFpsScore, fallbackStabilityBonus, fpsRangeOf,
    clampRound, JsVal.jsDiv, JsVal.jsMul, JsVal.jsSub, JsVal.jsAdd, JsVal.jsMin,
    JsVal.jsMax, JsVal.jsRoundV, specFallbackScore, clampInt]
  norm_num

/-- The two stability expressions (src/main.js lines 410 and 1088) are the
same function. -/
theorem fallbackStability_eq_fullStability :
    fallbackStability = fullStability := rfl

/-- Every configured `expectedFPS` baseline is nonzero. -/
theorem expectedFPSOf_ne_zero (lvl : Level) (mob : Bool) :
    expectedFPSOf lvl mob ≠ 0 := by
  cases lvl <;> cases mob <;> decide

theorem inRange_clampInt (z : ℤ) : InRange (.fin ((clampInt z : ℤ) : ℚ)) :=
  ⟨_, rfl, by exact_mod_cast clampInt_nonneg z, by exact_mod_cast clampInt_le z⟩

/-! ## Claim theorems -/

/-- C1: for every terminal stats tuple and the level/device `expectedFPS`,
the full-fidelity `calculateScore` returns
`score = clamp(round(min(100,(avg/expected)*60) - max(0,(maxTemp-75)*2) +
max(0, 30 - (maxFPS - minFPS))), 0, 100)` and
`stability = clamp(round(100 - ((maxFPS - minFPS)/avgFPS)*100), 0, 100)`;
in particular `expectedFPS = 35, avgFPS = 40, minFPS = 38, maxFPS = 42,
maxTemp = 70` gives `score = 95` and `stability = 90`. -/
theorem c1_full_scorer_formula (lvl : Level) (mob : Bool) (a mn mx t : ℚ)
    (ha : a ≠ 0) :
    calculateScore (expectedFPSOf lvl mob) (.fin a) (.fin mn) (.fin mx) (.fin t) =
      (.fin (specFullScore (expectedFPSOf lvl mob) a mn mx t),
        .fin (specStability a mn mx)) ∧
    specFullScore 35 40 38 42 70 = 95 ∧
    specStability 40 38 42 = 90 ∧
    calculateScore 35 (.fin 40) (.fin 38) (.fin 42) (.fin 70) = (.fin 95, .fin 90) := by
  have hs : specFullScore 35 40 38 42 70 = 95 := by
    norm_num [specFullScore, jsRound, clampInt, min_def, max_def]
  have ht : specStability 40 38 42 = 90 := by
    norm_num [specStability, jsRound, clampInt, min_def, max_def]
  refine ⟨?_, hs, ht, ?_⟩
  · exact Prod.ext_iff.2
      ⟨calculateScore_fst_fin _ a mn mx t (expectedFPSOf_ne_zero lvl mob),
       fullStability_fin a mn mx ha⟩
  · exact Prod.ext_iff.2
      ⟨(calculateScore_fst_fin 35 40 38 42 70 (by norm_num)).trans (by rw [hs]; norm_num),
       (fullStability_fin 40 38 42 (by norm_num)).trans (by rw [ht]; norm_num)⟩

/-- Witness for C1 at level Medium / desktop with
`avgFPS = 40, minFPS = 38, maxFPS = 42, maxTemp = 70`. -/
theorem c1_full_scorer_formula_witness :
    calculateScore (expectedFPSOf .medium false) (.fin 40) (.fin 38) (.fin 42) (.fin 70) =
      (.fin (specFullScore (expectedFPSOf .medium false) 40 38 42 70),
        .fin (specStability 40 38 42)) ∧
    specFullScore 35 40 38 42 70 = 95 ∧
    specStability 40 38 42 = 90 ∧
    calculateScore 35 (.fin 40) (.fin 38) (.fin 42) (.fin 70) = (.fin 95, .fin 90) :=
  c1_full_scorer_formula .medium false 40 38 42 70 (by norm_num)

/-- C4: in reduced-fidelity mode the scorer uses no thermal term, a fixed
`expectedFPS` of 50 and an FPS contribution capped at 70:
`score = clamp(round(min(100,(avg/50)*70) + max(0, 20 - (maxFPS-minFPS))),
0, 100)`, with stability computed identically to the full-fidelity path;
in particular `avgFPS = 25, minFPS = 20, maxFPS = 30` yields `score = 45`. -/
theorem c4_reduced_scorer_formula (a mn mx : ℚ) (ha : a ≠ 0) :
    fallbackScore (.fin a) (.fin mn) (.fin mx) =
      (.fin (specFallbackScore a mn mx), .fin (specStability a mn mx)) ∧
    fallbackStability = fullStability ∧
    specFallbackScore 25 20 30 = 45 ∧
    (fallbackScore (.fin 25) (.fin 20) (.fin 30)).1 = .fin 45 := by
  have hs : specFallbackScore 25 20 30 = 45 := by
    norm_num [specFallbackScore, jsRound, clampInt, min_def, max_def]
  refine ⟨?_, rfl, hs, (fallbackScore_fst_fin 25 20 30).trans (by rw [hs]; norm_num)⟩
  exact Prod.ext_iff.2
    ⟨fallbackScore_fst_fin a mn mx, fullStability_fin a mn mx ha⟩

/-- Witness for C4 at `avgFPS = 25, minFPS = 20, maxFPS = 30`. -/
theorem c4_reduced_scorer_formula_witness :
    fallbackScore (.fin 25) (.fin 20) (.fin 30) =
      (.fin (specFallbackScore 25 20 30), .fin (specStability 25 20 30)) ∧
    fallbackStability = fullStability ∧
    specFallbackScore 25 20 30 = 45 ∧
    (fallbackScore (.fin 25) (.fin 20) (.fin 30)).1 = .fin 45 :=
  c4_reduced_scorer_formula 25 20 30 (by norm_num)

/-- Truncating to 10 inside an append is absorbed by the outer
truncation. -/
theorem take_ten_absorb {α : Type} (l m : List α) :
    (l ++ m.take 10).take 10 = (l ++ m).take 10 := by
  rw [List.take_append_eq_append_take, List.take_take,
    List.take_append_eq_append_take, Nat.min_eq_left (Nat.sub_le 10 l.length)]

/-- Folding the unshift-and-truncate step keeps the newest-first order:
the result is the reversed append sequence truncated to 10. -/
theorem saveStep_foldl {α : Type} (rs : List α) (h : List α) (hh : h.length ≤ 10) :
    List.foldl saveStep h rs = (rs.reverse ++ h).take 10 := by
  induction rs generalizing h with
  | nil => simp [List.take_of_length_le hh]
  | cons r rs ih =>
      have hlen : (saveStep h r).length ≤ 10 := by
        simp [saveStep]
      calc List.foldl saveStep h (r :: rs)
          = List.foldl saveStep (saveStep h r) rs := rfl
        _ = (rs.reverse ++ (r :: h).take 10).take 10 := ih (saveStep h r) hlen
        _ = (rs.reverse ++ (r :: h)).take 10 := take_ten_absorb _ _
        _ = ((r :: rs).reverse ++ h).take 10 := by
            simp [List.reverse_cons, List.append_assoc]

/-- C7: for every sequence of append operations on the result history
(`unshift` of the new result followed by `slice(0, 10)`), the persisted
history never exceeds 10 entries and stays newest-first, with the last
appended result at the head. -/
theorem c7_history_capped_newest_first {α : Type} (rs : List α) (r : α) :
    (List.foldl saveStep ([] : List α) rs).length ≤ 10 ∧
    List.foldl saveStep ([] : List α) (rs ++ [r]) = (r :: rs.reverse).take 10 ∧
    (List.foldl saveStep ([] : List α) (rs ++ [r])).head? = some r := by
  have hbase : ∀ l : List α, List.foldl saveStep ([] : List α) l = l.reverse.take 10 := by
    intro l
    simpa using saveStep_foldl l [] (by simp)
  refine ⟨?_, ?_, ?_⟩
  · rw [hbase rs]
    simp
  · rw [hbase (rs ++ [r])]
    simp
  · rw [hbase (rs ++ [r])]
    rw [List.head?_take]
    simp

/-- C8 counterexample: a malformed persisted value is not returned as the
empty history — `JSON.parse` has no surrounding `try`/`catch` in
`loadPreviousResults` (src/main.js line 571), so it throws. -/
theorem c8_counterexample :
    @loadPreviousResults SavedRecord (some .malformed) =
      .error "SyntaxError: JSON.parse" ∧
    @loadPreviousResults SavedRecord (some .malformed) ≠ .ok [] := by
  exact ⟨rfl, by simp [loadPreviousResults]⟩

/-- C8 (amended): loading returns the persisted sequence, the empty
sequence when no value (or an empty string) is stored, and a `SyntaxError`
— not an empty history — when the persisted value is malformed. -/
theorem c8_load_behavior (l : List SavedRecord) :
    @loadPreviousResults SavedRecord none = .ok [] ∧
    loadPreviousResults (some .emptyStr) = .ok ([] : List SavedRecord) ∧
    loadPreviousResults (some (.wellFormed l)) = .ok l ∧
    @loadPreviousResults SavedRecord (some .malformed) =
      .error "SyntaxError: JSON.parse" :=
  ⟨rfl, rfl, rfl, rfl⟩

/-- C9 counterexample: invoking the reduced-fidelity start while
`isTestRunning` is `true` is not a no-op — `startFallbackTest` has no
running-test guard and resets the run state (here `testStartTime` changes
from 0 to 1). -/
theorem c9_counterexample :
    startFallbackTest .light 1 sampleRunningState ≠ sampleRunningState := by
  intro h
  exact absurd (congrArg AppState.testStartTime h) (by decide)

/-- C9 (amended): `startGPUTest` is a no-op while a test is running
(src/main.js line 442), but `startFallbackTest` performs no such check: it
unconditionally sets `isTestRunning`, resets the counters to the new start
time and reinitializes `testResults`.  Neither function queues anything. -/
theorem c9_single_live_run (lvl : Level) (now : ℤ) (s : AppState)
    (h : s.isTestRunning = true) :
    startGPUTest lvl now s = s ∧
    (startFallbackTest lvl now s).isTestRunning = true ∧
    (startFallbackTest lvl now s).testStartTime = now ∧
    (startFallbackTest lvl now s).lastFPSUpdate = now ∧
    (startFallbackTest lvl now s).frameCount = 0 ∧
    (startFallbackTest lvl now s).results = initTestResults :=
  ⟨by simp [startGPUTest, h], rfl, rfl, rfl, rfl, rfl⟩

/-- Witness for C9 at a concrete running state. -/
theorem c9_single_live_run_witness :
    startGPUTest .light 5 sampleRunningState = sampleRunningState ∧
    (startFallbackTest .light 5 sampleRunningState).isTestRunning = true ∧
    (startFallbackTest .light 5 sampleRunningState).testStartTime = 5 ∧
    (startFallbackTest .light 5 sampleRunningState).lastFPSUpdate = 5 ∧
    (startFallbackTest .light 5 sampleRunningState).frameCount = 0 ∧
    (startFallbackTest .light 5 sampleRunningState).results = initTestResults :=
  c9_single_live_run .light 5 sampleRunningState rfl

/-- C2 counterexample: at the finite inputs `avgFPS = 0`,
`minFPS = maxFPS = 0` (an explicitly allowed input: `avgFPS = 0`), the
stability expression divides `0` by `0`, which is `NaN` in JavaScript, and
`Math.max(0, Math.min(100, NaN))` is `NaN` — not a value in `[0, 100]` —
in both scoring paths. -/
theorem c2_counterexample :
    ¬ InRange (calculateScore (expectedFPSOf .medium false)
        (.fin 0) (.fin 0) (.fin 0) (.fin 65)).2 ∧
    ¬ InRange (fallbackScore (.fin 0) (.fin 0) (.fin 0)).2 ∧
    (calculateScore (expectedFPSOf .medium false)
        (.fin 0) (.fin 0) (.fin 0) (.fin 65)).2 = .nan ∧
    (fallbackScore (.fin 0) (.fin 0) (.fin 0)).2 = .nan := by
  have h1 : (calculateScore (expectedFPSOf .medium false)
      (.fin 0) (.fin 0) (.fin 0) (.fin 65)).2 = .nan :=
    fullStability_zero_zero 0
  have h2 : (fallbackScore (.fin 0) (.fin 0) (.fin 0)).2 = .nan :=
    fullStability_zero_zero 0
  have hn : ¬ InRange (JsVal.nan) := by
    rintro ⟨q, hq, -, -⟩
    cases hq
  exact ⟨fun hin => hn (h1 ▸ hin), fun hin => hn (h2 ▸ hin), h1, h2⟩

/-- C2 (amended): for all finite numeric inputs, the score is in `[0,100]`
in both scoring paths — unconditionally; the stability percentage is in
`[0,100]` whenever `avgFPS ≠ 0` or `maxFPS ≠ minFPS`, and when
`avgFPS = 0` and `maxFPS = minFPS` it is `NaN` (the counterexample case),
in both paths. -/
theorem c2_score_stability_bounds (lvl : Level) (mob : Bool) (a mn mx t : ℚ) :
    InRange (calculateScore (expectedFPSOf lvl mob)
      (.fin a) (.fin mn) (.fin mx) (.fin t)).1 ∧
    InRange (fallbackScore (.fin a) (.fin mn) (.fin mx)).1 ∧
    ((a ≠ 0 ∨ mn ≠ mx) →
      InRange (calculateScore (expectedFPSOf lvl mob)
        (.fin a) (.fin mn) (.fin mx) (.fin t)).2 ∧
      InRange (fallbackScore (.fin a) (.fin mn) (.fin mx)).2) ∧
    (a = 0 ∧ mn = mx →
      (calculateScore (expectedFPSOf lvl mob)
        (.fin a) (.fin mn) (.fin mx) (.fin t)).2 = .nan ∧
      (fallbackScore (.fin a) (.fin mn) (.fin mx)).2 = .nan) := by
  refine ⟨?_, ?_, ?_, ?_⟩
  · rw [calculateScore_fst_fin _ a mn mx t (expectedFPSOf_ne_zero lvl mob)]
    exact inRange_clampInt _
  · rw [fallbackScore_fst_fin a mn mx]
    exact inRange_clampInt _
  · intro h
    have hst : InRange (fullStability (.fin a) (.fin mn) (.fin mx)) := by
      rcases eq_or_ne a 0 with rfl | ha
      · have hmn : mn ≠ mx := h.resolve_left (by simp)
        rcases lt_or_gt_of_ne hmn with hlt | hgt
        · rw [fullStability_zero_pos mn mx hlt]
          exact ⟨0, rfl, le_refl 0, by norm_num⟩
        · rw [fullStability_zero_neg mn mx hgt]
          exact ⟨100, rfl, by norm_num, le_refl 100⟩
      · rw [fullStability_fin a mn mx ha]
        exact inRange_clampInt _
    exact ⟨hst, hst⟩
  · rintro ⟨rfl, rfl⟩
    have hnan : fullStability (.fin 0) (.fin mn) (.fin mn) = .nan :=
      fullStability_zero_zero mn
    exact ⟨hnan, hnan⟩

/-- The emitted-samples list only grows along a run. -/
theorem emissions_length_le (start : ℤ) (frames : List ℤ) (p : RunState × List ℤ) :
    p.2.length ≤ (frames.foldl (stepAcc start) p).2.length := by
  induction frames generalizing p with
  | nil => exact le_refl _
  | cons f fs ih =>
      refine le_trans ?_ (ih (stepAcc start p f))
      simp [stepAcc]

/-- A run segment that emits nothing leaves `lastFPSUpdate`, `minFPS`,
`maxFPS` and `avgFPS` untouched. -/
theorem foldl_no_emission (start : ℤ) (frames : List ℤ) :
    ∀ (s : RunState) (em : List ℤ),
      (frames.foldl (stepAcc start) (s, em)).2 = em →
      (frames.foldl (stepAcc start) (s, em)).1.lastFPSUpdate = s.lastFPSUpdate ∧
      (frames.foldl (stepAcc start) (s, em)).1.minFPS = s.minFPS ∧
      (frames.foldl (stepAcc start) (s, em)).1.maxFPS = s.maxFPS ∧
      (frames.foldl (stepAcc start) (s, em)).1.avgFPS = s.avgFPS := by
  induction frames with
  | nil => intro s em _; exact ⟨rfl, rfl, rfl, rfl⟩
  | cons f fs ih =>
      intro s em hz
      by_cases hcond : 1000 ≤ f - s.lastFPSUpdate
      · exfalso
        have hstep : (stepAcc start (s, em) f).2 = em ++ [windowFps s f] := by
          simp [stepAcc, frameStep, hcond]
        have hle := emissions_length_le start fs (stepAcc start (s, em) f)
        rw [hstep] at hle
        have : (fs.foldl (stepAcc start) (stepAcc start (s, em) f)).2 = em := by
          simpa [List.foldl_cons] using hz
        rw [this] at hle
        simp at hle
      · have hstep : stepAcc start (s, em) f =
            (⟨s.frameCount + 1, s.totalFrames + 1, s.lastFPSUpdate,
              s.minFPS, s.maxFPS, s.avgFPS⟩, em) := by
          simp [stepAcc, frameStep, hcond]
        have hz' : (fs.foldl (stepAcc start)
            ((⟨s.frameCount + 1, s.totalFrames + 1, s.lastFPSUpdate,
              s.minFPS, s.maxFPS, s.avgFPS⟩ : RunState), em)).2 = em := by
          have := hz
          rw [List.foldl_cons, hstep] at this
          exact this
        have := ih _ em hz'
        rw [List.foldl_cons, hstep]
        exact this

/-- A whole run with no emitted samples ends with the initial aggregates:
`minFPS = Infinity`, `maxFPS = 0`, `avgFPS = 0`, window still anchored at
the start time. -/
theorem runFrames_no_samples (start : ℤ) (frames : List ℤ)
    (hz : (runFrames start frames).2 = []) :
    (runFrames start frames).1.lastFPSUpdate = start ∧
    (runFrames start frames).1.minFPS = ⊤ ∧
    (runFrames start frames).1.maxFPS = 0 ∧
    (runFrames start frames).1.avgFPS = 0 :=
  foldl_no_emission start frames (initRunState start) [] hz

/-- On a zero-sample terminal state (`avgFPS = 0`, `minFPS = Infinity`,
`maxFPS = 0`), `calculateScore` produces `score = 100` and
`stability = 100` for every finite `maxTemp`: the FPS range is `-∞`, so
the stability bonus is `+∞` and both clamps saturate at 100. -/
theorem calculateScore_zero_run (e : ℚ) (he : e ≠ 0) (t : ℚ) :
    fullFpsScore e (.fin 0) = .fin 0 ∧
    calculateScore e (.fin 0) .inf (.fin 0) (.fin t) = (.fin 100, .fin 100) := by
  constructor
  · simp [fullFpsScore, JsVal.jsDiv, JsVal.jsMul, JsVal.jsMin, he]
  · simp [calculateScore, fullFpsScore, fullTempPenalty, fullStabilityBonus,
      fullStability, fpsRangeOf, clampRound, JsVal.jsDiv, JsVal.jsMul,
      JsVal.jsSub, JsVal.jsAdd, JsVal.jsMin, JsVal.jsMax, JsVal.jsRoundV, he]

/-- Witness for C2 at level Medium / desktop with
`avgFPS = 40, minFPS = 38, maxFPS = 42, maxTemp = 70`, the inner
stability hypothesis discharged at this concrete input. -/
theorem c2_score_stability_bounds_witness :
    InRange (calculateScore (expectedFPSOf .medium false)
      (.fin 40) (.fin 38) (.fin 42) (.fin 70)).1 ∧
    InRange (fallbackScore (.fin 40) (.fin 38) (.fin 42)).1 ∧
    InRange (calculateScore (expectedFPSOf .medium false)
      (.fin 40) (.fin 38) (.fin 42) (.fin 70)).2 ∧
    InRange (fallbackScore (.fin 40) (.fin 38) (.fin 42)).2 :=
  ⟨(c2_score_stability_bounds .medium false 40 38 42 70).1,
   (c2_score_stability_bounds .medium false 40 38 42 70).2.1,
   ((c2_score_stability_bounds .medium false 40 38 42 70).2.2.1
     (Or.inl (by norm_num))).1,
   ((c2_score_stability_bounds .medium false 40 38 42 70).2.2.1
     (Or.inl (by norm_num))).2⟩

/-- C5 counterexample: for the concrete zero-sample run (start at 0, one
frame at 500ms, stopped before any 1-second window closed) the claim's
`stability = 0` is false: the scorer returns `stability = 100` (and
`score = 100`), because `fpsRange = 0 - Infinity = -Infinity` makes the
stability expression `+Infinity` before clamping. -/
theorem c5_counterexample :
    (runFrames 0 [500]).2 = [] ∧
    calculateScore (expectedFPSOf .medium false)
      (.fin ((runFrames 0 [500]).1.avgFPS : ℚ))
      (jsValOfMinFPS (runFrames 0 [500]).1.minFPS)
      (.fin ((runFrames 0 [500]).1.maxFPS : ℚ))
      (.fin 65) = (.fin 100, .fin 100) ∧
    (calculateScore (expectedFPSOf .medium false)
      (.fin ((runFrames 0 [500]).1.avgFPS : ℚ))
      (jsValOfMinFPS (runFrames 0 [500]).1.minFPS)
      (.fin ((runFrames 0 [500]).1.maxFPS : ℚ))
      (.fin 65)).2 ≠ .fin 0 := by
  have hz : (runFrames 0 [500]).2 = [] := by
    simp [runFrames, stepAcc, frameStep, initRunState]
  obtain ⟨-, hmin, hmax, havg⟩ := runFrames_no_samples 0 [500] hz
  have hc : calculateScore (expectedFPSOf .medium false)
      (.fin ((runFrames 0 [500]).1.avgFPS : ℚ))
      (jsValOfMinFPS (runFrames 0 [500]).1.minFPS)
      (.fin ((runFrames 0 [500]).1.maxFPS : ℚ))
      (.fin 65) = (.fin 100, .fin 100) := by
    rw [hmin, hmax, havg]
    exact (calculateScore_zero_run _ (expectedFPSOf_ne_zero .medium false) 65).2
  refine ⟨hz, hc, ?_⟩
  rw [hc]
  simp

/-- C5 (amended): for a run in which zero samples were emitted, `minFPS`
is still `Infinity` and is reported as 0 for display, `avgFPS = 0`,
`maxFPS = 0`, and the `fpsScore` term is 0; but the scorer has no
zero-sample special case: the `-Infinity` FPS range drives both the score
and the stability to the upper clamp, so the result is `score = 100` and
`stability = 100` (not `stability = 0`). -/
theorem c5_zero_sample_run (start : ℤ) (frames : List ℤ) (t : ℚ)
    (lvl : Level) (mob : Bool)
    (hz : (runFrames start frames).2 = []) :
    (runFrames start frames).1.minFPS = ⊤ ∧
    (runFrames start frames).1.avgFPS = 0 ∧
    (runFrames start frames).1.maxFPS = 0 ∧
    displayMinFPS (runFrames start frames).1.minFPS = 0 ∧
    fullFpsScore (expectedFPSOf lvl mob)
      (.fin ((runFrames start frames).1.avgFPS : ℚ)) = .fin 0 ∧
    calculateScore (expectedFPSOf lvl mob)
      (.fin ((runFrames start frames).1.avgFPS : ℚ))
      (jsValOfMinFPS (runFrames start frames).1.minFPS)
      (.fin ((runFrames start frames).1.maxFPS : ℚ))
      (.fin t) = (.fin 100, .fin 100) := by
  obtain ⟨-, hmin, hmax, havg⟩ := runFrames_no_samples start frames hz
  have he := expectedFPSOf_ne_zero lvl mob
  refine ⟨hmin, havg, hmax, by rw [hmin]; rfl, ?_, ?_⟩
  · rw [havg]
    exact (calculateScore_zero_run _ he t).1
  · rw [hmin, hmax, havg]
    exact (calculateScore_zero_run _ he t).2

/-- Witness for C5: the run starting at 0 with a single frame at 500ms. -/
theorem c5_zero_sample_run_witness :
    (runFrames 0 [500]).2 = [] ∧
    ((runFrames 0 [500]).1.minFPS = ⊤ ∧
    (runFrames 0 [500]).1.avgFPS = 0 ∧
    (runFrames 0 [500]).1.maxFPS = 0 ∧
    displayMinFPS (runFrames 0 [500]).1.minFPS = 0 ∧
    fullFpsScore (expectedFPSOf .light true)
      (.fin ((runFrames 0 [500]).1.avgFPS : ℚ)) = .fin 0 ∧
    calculateScore (expectedFPSOf .light true)
      (.fin ((runFrames 0 [500]).1.avgFPS : ℚ))
      (jsValOfMinFPS (runFrames 0 [500]).1.minFPS)
      (.fin ((runFrames 0 [500]).1.maxFPS : ℚ))
      (.fin 80) = (.fin 100, .fin 100)) :=
  have hz : (runFrames 0 [500]).2 = [] := by
    simp [runFrames, stepAcc, frameStep, initRunState]
  ⟨hz, c5_zero_sample_run 0 [500] 80 .light true hz⟩

/-- An emitted FPS sample is never negative: the window frame count and
the window length are both positive. -/
theorem windowFps_nonneg (s : RunState) (now : ℤ)
    (h : 1000 ≤ now - s.lastFPSUpdate) : 0 ≤ windowFps s now := by
  have hw : (0 : ℚ) < ((now - s.lastFPSUpdate : ℤ) : ℚ) / 1000 := by
    have : (1000 : ℚ) ≤ ((now - s.lastFPSUpdate : ℤ) : ℚ) := by exact_mod_cast h
    positivity
  exact jsRound_nonneg (div_nonneg (by positivity) hw.le)

/-- Run invariant for the sampler rate bound: the window anchor never
precedes the start, trails the time frontier, and pays 1000ms for every
emitted sample; all emitted samples are nonnegative. -/
theorem sampler_rate_aux (start : ℤ) (frames : List ℤ) :
    ∀ (t0 : ℤ) (s : RunState) (em : List ℤ),
      List.Chain (· ≤ ·) t0 frames →
      start ≤ s.lastFPSUpdate → s.lastFPSUpdate ≤ t0 →
      1000 * (em.length : ℤ) ≤ s.lastFPSUpdate - start →
      (∀ x ∈ em, 0 ≤ x) →
      start ≤ (frames.foldl (stepAcc start) (s, em)).1.lastFPSUpdate ∧
      (frames.foldl (stepAcc start) (s, em)).1.lastFPSUpdate ≤ frames.getLastD t0 ∧
      1000 * (((frames.foldl (stepAcc start) (s, em)).2.length : ℤ)) ≤
        (frames.foldl (stepAcc start) (s, em)).1.lastFPSUpdate - start ∧
      (∀ x ∈ (frames.foldl (stepAcc start) (s, em)).2, 0 ≤ x) := by
  induction frames with
  | nil =>
      intro t0 s em _ h1 h2 h3 h4
      exact ⟨h1, h2, h3, h4⟩
  | cons f fs ih =>
      intro t0 s em hch h1 h2 h3 h4
      rw [List.chain_cons] at hch
      obtain ⟨htf, hch'⟩ := hch
      rw [List.foldl_cons, List.getLastD_cons]
      by_cases hcond : 1000 ≤ f - s.lastFPSUpdate
      · have hstep : stepAcc start (s, em) f =
            (⟨0, s.totalFrames + 1, f, min s.minFPS (windowFps s f : WithTop ℤ),
              max s.maxFPS (windowFps s f),
              runAvg start (s.totalFrames + 1) f⟩, em ++ [windowFps s f]) := by
          simp [stepAcc, frameStep, hcond]
        rw [hstep]
        refine ih f _ _ hch' ?_ le_rfl ?_ ?_
        · show start ≤ f
          omega
        · show 1000 * (((em ++ [windowFps s f]).length : ℕ) : ℤ) ≤ f - start
          simp only [List.length_append, List.length_cons, List.length_nil]
          push_cast
          omega
        · intro x hx
          rcases List.mem_append.1 hx with hx | hx
          · exact h4 x hx
          · rw [List.mem_singleton] at hx
            exact hx ▸ windowFps_nonneg s f hcond
      · have hstep : stepAcc start (s, em) f =
            (⟨s.frameCount + 1, s.totalFrames + 1, s.lastFPSUpdate,
              s.minFPS, s.maxFPS, s.avgFPS⟩, em) := by
          simp [stepAcc, frameStep, hcond]
        rw [hstep]
        exact ih f _ _ hch' h1 (le_trans h2 htf) h3 h4

/-- C3 counterexample: with frames at 2000ms and 4000ms after a start at
0, every callback closes a (2-second) window, so the sampler emits 2
samples over 4000ms of elapsed wall time — not the 4 that "exactly one
sample per 1000ms" would require. -/
theorem c3_counterexample :
    (runFrames 0 [2000, 4000]).2.length = 2 ∧
    ((4000 : ℤ) - 0) / 1000 = 4 ∧ (2 : ℤ) ≠ 4 := by
  refine ⟨?_, by norm_num, by norm_num⟩
  simp [runFrames, stepAcc, frameStep, initRunState]

/-- The mediant `(a+c)/(b+d)` of two fractions with positive denominators
lies between them. -/
theorem mediant_bounds (a b c d : ℚ) (hb : 0 < b) (hd : 0 < d) :
    min (a / b) (c / d) ≤ (a + c) / (b + d) ∧
    (a + c) / (b + d) ≤ max (a / b) (c / d) := by
  have hbd : 0 < b + d := by linarith
  constructor
  · rcases le_total (a / b) (c / d) with h | h
    · rw [min_eq_left h, div_le_div_iff₀ hb hbd]
      have h' := (div_le_div_iff₀ hb hd).1 h
      nlinarith
    · rw [min_eq_right h, div_le_div_iff₀ hd hbd]
      have h' := (div_le_div_iff₀ hd hb).1 h
      nlinarith
  · rcases le_total (a / b) (c / d) with h | h
    · rw [max_eq_right h, div_le_div_iff₀ hbd hd]
      have h' := (div_le_div_iff₀ hb hd).1 h
      nlinarith
    · rw [max_eq_left h, div_le_div_iff₀ hbd hb]
      have h' := (div_le_div_iff₀ hd hb).1 h
      nlinarith

/-- The emitted sample is the rounded rate of its window. -/
theorem windowFps_as_rate (s : RunState) (now : ℤ) :
    windowFps s now = jsRound (1000 * ((s.frameCount + 1 : ℕ) : ℚ) /
      ((now - s.lastFPSUpdate : ℤ) : ℚ)) := by
  rw [windowFps]
  congr 1
  rw [div_div_eq_mul_div]
  ring

/-- The recorded average is the rounded overall rate. -/
theorem runAvg_as_rate (start : ℤ) (tf : ℕ) (now : ℤ) :
    runAvg start tf now =
      jsRound (1000 * (tf : ℚ) / ((now - start : ℤ) : ℚ)) := by
  rw [runAvg]
  congr 1
  rw [div_div_eq_mul_div]
  ring

/-- The aggregator invariant is preserved by every frame callback. -/
theorem aggInv_step (start : ℤ) (p : RunState × List ℤ) (now : ℤ)
    (h : aggInv start p) : aggInv start (stepAcc start p now) := by
  obtain ⟨hz, hnz⟩ := h
  by_cases hcond : 1000 ≤ now - p.1.lastFPSUpdate
  · have hstep : stepAcc start p now =
        (⟨0, p.1.totalFrames + 1, now,
          min p.1.minFPS (windowFps p.1 now : WithTop ℤ),
          max p.1.maxFPS (windowFps p.1 now),
          runAvg start (p.1.totalFrames + 1) now⟩, p.2 ++ [windowFps p.1 now]) := by
      simp [stepAcc, frameStep, hcond]
    rw [hstep]
    constructor
    · intro habs
      exact absurd habs (by simp)
    · intro _
      have hw : (0 : ℚ) < ((now - p.1.lastFPSUpdate : ℤ) : ℚ) := by
        have : (0 : ℤ) < now - p.1.lastFPSUpdate := by omega
        exact_mod_cast this
      rcases eq_or_ne p.2 [] with hemp | hne
      · -- first emission: the whole run so far is one window
        obtain ⟨hlast, hmin, hmax, -, hfc⟩ := hz hemp
        have hrate : avgRate start
            (⟨0, p.1.totalFrames + 1, now,
              min p.1.minFPS (windowFps p.1 now : WithTop ℤ),
              max p.1.maxFPS (windowFps p.1 now),
              runAvg start (p.1.totalFrames + 1) now⟩ : RunState) =
            1000 * ((p.1.frameCount + 1 : ℕ) : ℚ) /
              ((now - p.1.lastFPSUpdate : ℤ) : ℚ) := by
          rw [avgRate, closedFrames]
          dsimp only
          rw [hlast, hfc]
          simp
        refine ⟨by dsimp only; omega, by dsimp only; omega, ?_, ?_, ?_⟩
        · dsimp only
          rw [hrate, runAvg_as_rate, hfc, hlast]
        · refine ⟨1000 * ((p.1.frameCount + 1 : ℕ) : ℚ) /
            ((now - p.1.lastFPSUpdate : ℤ) : ℚ), le_of_eq hrate.symm, ?_⟩
          dsimp only
          rw [hmin, windowFps_as_rate]
          simp
        · refine ⟨1000 * ((p.1.frameCount + 1 : ℕ) : ℚ) /
            ((now - p.1.lastFPSUpdate : ℤ) : ℚ), le_of_eq hrate, ?_⟩
          dsimp only
          rw [windowFps_as_rate]
          exact le_max_right _ _
      · -- later emission: the new overall rate is a mediant
        obtain ⟨hlt, hfc, -, ⟨rlo, hrlo, hminle⟩, ⟨rhi, hrhi, hmaxge⟩⟩ := hnz hne
        have hD : (0 : ℚ) < ((p.1.lastFPSUpdate - start : ℤ) : ℚ) := by
          have : (0 : ℤ) < p.1.lastFPSUpdate - start := by omega
          exact_mod_cast this
        have h2 : ((now - start : ℤ) : ℚ) =
            ((p.1.lastFPSUpdate - start : ℤ) : ℚ) +
            ((now - p.1.lastFPSUpdate : ℤ) : ℚ) := by
          push_cast
          ring
        have h1 : ((p.1.totalFrames + 1 : ℕ) : ℚ) =
            ((p.1.totalFrames - p.1.frameCount : ℕ) : ℚ) +
            ((p.1.frameCount + 1 : ℕ) : ℚ) := by
          push_cast [Nat.cast_sub hfc]
          ring
        have hsplit : avgRate start
            (⟨0, p.1.totalFrames + 1, now,
              min p.1.minFPS (windowFps p.1 now : WithTop ℤ),
              max p.1.maxFPS (windowFps p.1 now),
              runAvg start (p.1.totalFrames + 1) now⟩ : RunState) =
            (1000 * ((closedFrames p.1 : ℕ) : ℚ) +
              1000 * ((p.1.frameCount + 1 : ℕ) : ℚ)) /
            (((p.1.lastFPSUpdate - start : ℤ) : ℚ) +
              ((now - p.1.lastFPSUpdate : ℤ) : ℚ)) := by
          rw [avgRate, closedFrames]
          dsimp only
          rw [Nat.sub_zero, h2, h1, closedFrames]
          ring
        have hmed := mediant_bounds (1000 * ((closedFrames p.1 : ℕ) : ℚ))
          (((p.1.lastFPSUpdate - start : ℤ) : ℚ))
          (1000 * ((p.1.frameCount + 1 : ℕ) : ℚ))
          (((now - p.1.lastFPSUpdate : ℤ) : ℚ)) hD hw
        have hR : avgRate start p.1 =
            1000 * ((closedFrames p.1 : ℕ) : ℚ) /
              ((p.1.lastFPSUpdate - start : ℤ) : ℚ) := rfl
        refine ⟨by dsimp only; omega, by dsimp only; omega, ?_, ?_, ?_⟩
        · dsimp only
          rw [hsplit, runAvg_as_rate, h2, h1, closedFrames]
          congr 1
          ring
        · refine ⟨min rlo (1000 * ((p.1.frameCount + 1 : ℕ) : ℚ) /
            ((now - p.1.lastFPSUpdate : ℤ) : ℚ)), ?_, ?_⟩
          · rw [hsplit]
            refine le_trans (min_le_min ?_ le_rfl) hmed.1
            rw [← hR]
            exact hrlo
          · dsimp only
            rw [jsRound_min, WithTop.coe_min, windowFps_as_rate]
            exact min_le_min hminle le_rfl
        · refine ⟨max rhi (1000 * ((p.1.frameCount + 1 : ℕ) : ℚ) /
            ((now - p.1.lastFPSUpdate : ℤ) : ℚ)), ?_, ?_⟩
          · rw [hsplit]
            refine le_trans hmed.2 (max_le_max ?_ le_rfl)
            rw [← hR]
            exact hrhi
          · dsimp only
            rw [jsRound_max, windowFps_as_rate]
            exact max_le_max hmaxge le_rfl
  · have hstep : stepAcc start p now =
        (⟨p.1.frameCount + 1, p.1.totalFrames + 1, p.1.lastFPSUpdate,
          p.1.minFPS, p.1.maxFPS, p.1.avgFPS⟩, p.2) := by
      simp [stepAcc, frameStep, hcond]
    rw [hstep]
    constructor
    · intro hem
      obtain ⟨hlast, hmin, hmax, havg, hfc⟩ := hz hem
      exact ⟨hlast, hmin, hmax, havg, by dsimp only; omega⟩
    · intro hne
      obtain ⟨hlt, hfc, havg, hex1, hex2⟩ := hnz hne
      have hrate : avgRate start
          (⟨p.1.frameCount + 1, p.1.totalFrames + 1, p.1.lastFPSUpdate,
            p.1.minFPS, p.1.maxFPS, p.1.avgFPS⟩ : RunState) = avgRate start p.1 := by
        rw [avgRate, avgRate, closedFrames, closedFrames]
        dsimp only
        rw [Nat.succ_sub_succ]
      refine ⟨hlt, by dsimp only; omega, ?_, ?_, ?_⟩
      · dsimp only
        rw [hrate]
        exact havg
      · dsimp only
        rw [hrate]
        exact hex1
      · dsimp only
        rw [hrate]
        exact hex2

/-- The aggregator invariant holds at the end of every run. -/
theorem aggInv_run (start : ℤ) (frames : List ℤ) :
    aggInv start (runFrames start frames) := by
  have hinit : aggInv start (initRunState start, []) := by
    constructor
    · intro _
      exact ⟨rfl, rfl, rfl, rfl, rfl⟩
    · intro habs
      exact absurd rfl habs
  rw [runFrames]
  generalize hp : (initRunState start, ([] : List ℤ)) = p at hinit
  clear hp
  induction frames generalizing p with
  | nil => exact hinit
  | cons f fs ih =>
      rw [List.foldl_cons]
      exact ih _ (aggInv_step start p f hinit)

/-- C6: after any run with a nonempty sequence of emitted samples
(`minFPS` initialized to `+Infinity`, `maxFPS` to 0,
`avgFPS = round(cumulative frames / elapsed seconds)`), the final
aggregates satisfy `minFPS ≤ avgFPS ≤ maxFPS`. -/
theorem c6_min_avg_max (start : ℤ) (frames : List ℤ)
    (hne : (runFrames start frames).2 ≠ []) :
    (runFrames start frames).1.minFPS ≠ ⊤ ∧
    (runFrames start frames).1.minFPS ≤
      ((runFrames start frames).1.avgFPS : WithTop ℤ) ∧
    (runFrames start frames).1.avgFPS ≤ (runFrames start frames).1.maxFPS := by
  obtain ⟨-, hnz⟩ := aggInv_run start frames
  obtain ⟨-, -, havg, ⟨rlo, hrlo, hminle⟩, ⟨rhi, hrhi, hmaxge⟩⟩ := hnz hne
  obtain ⟨m, hm, hmz⟩ := WithTop.le_coe_iff.1 hminle
  refine ⟨by rw [hm]; exact WithTop.coe_ne_top, ?_, ?_⟩
  · rw [hm, havg, WithTop.coe_le_coe]
    exact le_trans hmz (jsRound_mono hrlo)
  · rw [havg]
    exact le_trans (jsRound_mono hrhi) hmaxge

/-- Witness for C6: the run starting at 0 with one frame at 1000ms emits
one sample. -/
theorem c6_min_avg_max_witness :
    (runFrames 0 [1000]).1.minFPS ≠ ⊤ ∧
    (runFrames 0 [1000]).1.minFPS ≤ ((runFrames 0 [1000]).1.avgFPS : WithTop ℤ) ∧
    (runFrames 0 [1000]).1.avgFPS ≤ (runFrames 0 [1000]).1.maxFPS :=
  c6_min_avg_max 0 [1000] (by simp [runFrames, stepAcc, frameStep, initRunState])

/-- C3 (amended): each frame callback increments the window frame count;
when `now - windowStart ≥ 1000` it emits
`fps = round(frameCount / ((now - windowStart)/1000))` with `fps ≥ 0` and
resets the counter and window anchor, and otherwise emits nothing; over
any nondecreasing sequence of frame timestamps the sampler emits **at
most** one sample per 1000ms of elapsed wall time (not exactly one: a
sparse frame stream emits fewer). -/
theorem c3_sampler_behavior (start : ℤ) (frames : List ℤ) (s : RunState)
    (now : ℤ) (hch : List.Chain (· ≤ ·) start frames) :
    (∀ x ∈ (runFrames start frames).2, 0 ≤ x) ∧
    1000 * ((runFrames start frames).2.length : ℤ) ≤
      frames.getLastD start - start ∧
    ((runFrames start frames).2.length : ℤ) ≤
      (frames.getLastD start - start) / 1000 ∧
    (now - s.lastFPSUpdate < 1000 →
      frameStep start s now =
        (⟨s.frameCount + 1, s.totalFrames + 1, s.lastFPSUpdate,
          s.minFPS, s.maxFPS, s.avgFPS⟩, none)) ∧
    (1000 ≤ now - s.lastFPSUpdate →
      frameStep start s now =
        (⟨0, s.totalFrames + 1, now, min s.minFPS (windowFps s now : WithTop ℤ),
          max s.maxFPS (windowFps s now), runAvg start (s.totalFrames + 1) now⟩,
         some (windowFps s now)) ∧
      0 ≤ windowFps s now) := by
  obtain ⟨-, hfrontier, hbound, hpos⟩ :=
    sampler_rate_aux start frames start (initRunState start) []
      hch (by simp [initRunState]) (by simp [initRunState]) (by simp [initRunState]) (by simp)
  have hb : 1000 * ((runFrames start frames).2.length : ℤ) ≤
      frames.getLastD start - start :=
    le_trans hbound (sub_le_sub_right hfrontier start)
  refine ⟨hpos, hb, by omega, ?_, ?_⟩
  · intro h
    rw [frameStep, if_neg (not_le.2 h)]
  · intro h
    exact ⟨by rw [frameStep, if_pos h], windowFps_nonneg s now h⟩

/-- Witness for C3: start at 0, frames at 500ms and 1000ms, and a sampler
step at `now = 1500` from the initial state. -/
theorem c3_sampler_behavior_witness :
    (∀ x ∈ (runFrames 0 [500, 1000]).2, 0 ≤ x) ∧
    1000 * (((runFrames 0 [500, 1000]).2.length : ℕ) : ℤ) ≤
      ([500, 1000] : List ℤ).getLastD 0 - 0 ∧
    (((runFrames 0 [500, 1000]).2.length : ℕ) : ℤ) ≤
      (([500, 1000] : List ℤ).getLastD 0 - 0) / 1000 ∧
    ((1500 : ℤ) - (initRunState 0).lastFPSUpdate < 1000 →
      frameStep 0 (initRunState 0) 1500 =
        (⟨(initRunState 0).frameCount + 1, (initRunState 0).totalFrames + 1,
          (initRunState 0).lastFPSUpdate, (initRunState 0).minFPS,
          (initRunState 0).maxFPS, (initRunState 0).avgFPS⟩, none)) ∧
    (1000 ≤ (1500 : ℤ) - (initRunState 0).lastFPSUpdate →
      frameStep 0 (initRunState 0) 1500 =
        (⟨0, (initRunState 0).totalFrames + 1, 1500,
          min (initRunState 0).minFPS (windowFps (initRunState 0) 1500 : WithTop ℤ),
          max (initRunState 0).maxFPS (windowFps (initRunState 0) 1500),
          runAvg 0 ((initRunState 0).totalFrames + 1) 1500⟩,
         some (windowFps (initRunState 0) 1500)) ∧
      0 ≤ windowFps (initRunState 0) 1500) :=
  c3_sampler_behavior 0 [500, 1000] (initRunState 0) 1500
    (by rw [List.chain_cons, List.chain_cons]; norm_num)

/-- C10: when a run ends with zero emitted samples, `saveTestResults`
serializes the still-`Infinity` `minFPS` with `JSON.stringify`, which
encodes `Infinity` as `null`; the entry appended to the persisted history
therefore has `minFPS = null` (not a number), and loading the history
returns that `null` value at the head entry. -/
theorem c10_infinity_minfps_persists_null (start : ℤ) (frames : List ℤ)
    (mt : ℚ) (st sc : JsVal) (lvl : Level) (mob : Bool) (d tm : String)
    (prior : List SavedRecord) (q : ℚ)
    (hz : (runFrames start frames).2 = []) :
    (buildSavedRecord lvl mob (terminalTestResults start frames mt st sc) d tm).minFPS
        = Json.null ∧
    (buildSavedRecord lvl mob (terminalTestResults start frames mt st sc) d tm).minFPS
        ≠ Json.num q ∧
    saveTestResults (buildSavedRecord lvl mob (terminalTestResults start frames mt st sc) d tm)
        (some (.wellFormed prior)) =
      .ok (some (.wellFormed (saveStep prior
        (buildSavedRecord lvl mob (terminalTestResults start frames mt st sc) d tm)))) ∧
    loadPreviousResults (some (.wellFormed (saveStep prior
        (buildSavedRecord lvl mob (terminalTestResults start frames mt st sc) d tm)))) =
      .ok (saveStep prior
        (buildSavedRecord lvl mob (terminalTestResults start frames mt st sc) d tm)) ∧
    (saveStep prior
        (buildSavedRecord lvl mob (terminalTestResults start frames mt st sc) d tm)).head? =
      some (buildSavedRecord lvl mob (terminalTestResults start frames mt st sc) d tm) := by
  obtain ⟨-, hmin, -, -⟩ := runFrames_no_samples start frames hz
  have hnull : (buildSavedRecord lvl mob
      (terminalTestResults start frames mt st sc) d tm).minFPS = Json.null := by
    simp [buildSavedRecord, terminalTestResults, hmin, jsValOfMinFPS, jsonOfNumber]
  refine ⟨hnull, by rw [hnull]; exact fun h => Json.noConfusion h, rfl, rfl, ?_⟩
  rw [saveStep, List.head?_take]
  simp

/-- Witness for C10: the run starting at 0 with a single frame at 500ms,
saved on top of an empty history. -/
theorem c10_infinity_minfps_persists_null_witness :
    (buildSavedRecord .medium false (terminalTestResults 0 [500] 65 (.fin 100) (.fin 100)) "d" "t").minFPS
        = Json.null ∧
    (buildSavedRecord .medium false (terminalTestResults 0 [500] 65 (.fin 100) (.fin 100)) "d" "t").minFPS
        ≠ Json.num 0 ∧
    saveTestResults (buildSavedRecord .medium false (terminalTestResults 0 [500] 65 (.fin 100) (.fin 100)) "d" "t")
        (some (.wellFormed [])) =
      .ok (some (.wellFormed (saveStep []
        (buildSavedRecord .medium false (terminalTestResults 0 [500] 65 (.fin 100) (.fin 100)) "d" "t")))) ∧
    loadPreviousResults (some (.wellFormed (saveStep []
        (buildSavedRecord .medium false (terminalTestResults 0 [500] 65 (.fin 100) (.fin 100)) "d" "t")))) =
      .ok (saveStep []
        (buildSavedRecord .medium false (terminalTestResults 0 [500] 65 (.fin 100) (.fin 100)) "d" "t")) ∧
    (saveStep []
        (buildSavedRecord .medium false (terminalTestResults 0 [500] 65 (.fin 100) (.fin 100)) "d" "t")).head? =
      some (buildSavedRecord .medium false (terminalTestResults 0 [500] 65 (.fin 100) (.fin 100)) "d" "t") :=
  c10_infinity_minfps_persists_null 0 [500] 65 (.fin 100) (.fin 100) .medium false
    "d" "t" [] 0 (by simp [runFrames, stepAcc, frameStep, initRunState])

end GpuStress
